import Mathlib

/-!
Verification development for the session core of a PostgreSQL client
(`packages/pg/lib/client.js` together with its SASL/SCRAM helper module).

The JavaScript source is shallowly embedded: plain functions become Lean
functions, JS dynamic values are modelled by a small `JsVal` type where the
dynamic typing matters, fallible code returns `Except String`, and the
event-driven client is modelled as a state structure plus a step function
that returns the successor state together with the list of observable
effects (callbacks scheduled with `process.nextTick` are distinguished from
callbacks invoked synchronously).
-/

set_option maxHeartbeats 1000000

/-! ## JavaScript value model -/

/-- A JS value, sufficient for the dynamic-typing behaviour the client
source depends on (`typeof x !== 'string'` checks, truthiness tests and
string coercion). -/
inductive JsVal where
  | undef
  | jsNull
  | bool (b : Bool)
  | num (n : Int)
  | str (s : String)
  deriving DecidableEq, Repr

/-- JS truthiness of a `JsVal` (`undefined`, `null`, `false`, `0` and `""`
are falsy). -/
def JsVal.truthy : JsVal → Bool
  | .undef => false
  | .jsNull => false
  | .bool b => b
  | .num n => n ≠ 0
  | .str s => !s.isEmpty

/-- JS string coercion `'' + v`. -/
def JsVal.toStr : JsVal → String
  | .undef => "undefined"
  | .jsNull => "null"
  | .bool b => if b then "true" else "false"
  | .num n => toString n
  | .str s => s

/-- JS `a || b`: `a` when truthy, otherwise `b`. -/
def jsOr (a b : JsVal) : JsVal := if a.truthy then a else b

/-- Longest leading run of decimal digits, as a number; `none` when there is
no leading digit (`parseInt` returns `NaN` there). -/
def jsDigitsPrefix (cs : List Char) : Option Nat :=
  let ds := cs.takeWhile Char.isDigit
  if ds.isEmpty then none
  else some (ds.foldl (fun acc c => acc * 10 + (c.toNat - '0'.toNat)) 0)

/-- Model of `parseInt(s, 10)`: skip leading whitespace, optional sign,
then the longest decimal-digit prefix; `none` models `NaN`. -/
def jsParseInt (s : String) : Option Int :=
  let cs := s.data.dropWhile fun c => c = ' ' ∨ c = '\t' ∨ c = '\n' ∨ c = '\r'
  match cs with
  | '-' :: rest => (jsDigitsPrefix rest).map fun n => -(n : Int)
  | '+' :: rest => (jsDigitsPrefix rest).map fun n => (n : Int)
  | _ => (jsDigitsPrefix cs).map fun n => (n : Int)

/-- Model of `String(parseInt(v, 10))` as the source applies it to the
timeout parameters. -/
def jsStringOfParseInt (v : JsVal) : String :=
  match jsParseInt v.toStr with
  | some n => toString n
  | none => "NaN"

/-- Model of JS `String.prototype.startsWith` (prefix on code units; the
strings involved here are ASCII). -/
def jsStartsWith (s pre : String) : Bool := pre.data.isPrefixOf s.data

/-- Model of JS `String.prototype.split(',')`. -/
def splitComma : List Char → List (List Char)
  | [] => [[]]
  | c :: rest =>
    let r := splitComma rest
    if c = ',' then [] :: r
    else
      match r with
      | [] => [[c]]
      | h :: t => (c :: h) :: t

/-! ## SASL/SCRAM module (`crypto/sasl.js`) -/

/-- The value `client.js` passes as `stream`: a socket, which exposes
`getPeerCertificate` exactly when it is a TLS socket.  `peerCertRaw` models
`getPeerCertificate().raw` (DER bytes). -/
structure SaslStream where
  hasPeerCertFn : Bool
  peerCertRaw : List Nat
  deriving DecidableEq, Repr

/-- The SASL session object built by `startSession` and updated by
`continueSession`. -/
structure ScramSession where
  mechanism : String
  clientNonce : String
  message : String
  response : String
  serverSignature : Option String
  deriving DecidableEq, Repr

/-- Source `startSession(mechanisms, stream)`.  The 18 random bytes base64-encoded
into the client nonce come from the external `crypto` module, so the nonce
is a parameter. -/
def startSession (mechanisms : List String) (stream : Option SaslStream)
    (clientNonce : String) : Except String ScramSession :=
  let candidates :=
    if stream.isSome then ["SCRAM-SHA-256-PLUS", "SCRAM-SHA-256"] else ["SCRAM-SHA-256"]
  match candidates.find? fun c => mechanisms.contains c with
  | none =>
    .error ("SASL: Only mechanism(s) " ++ String.intercalate " and " candidates
      ++ " are supported")
  | some mechanism =>
    if mechanism = "SCRAM-SHA-256-PLUS"
        && !((stream.map SaslStream.hasPeerCertFn).getD false) then
      .error "SASL: Mechanism SCRAM-SHA-256-PLUS requires a certificate"
    else
      let gs2Header :=
        if mechanism = "SCRAM-SHA-256-PLUS" then "p=tls-server-end-point"
        else if stream.isSome then "y" else "n"
      .ok { mechanism := mechanism
            clientNonce := clientNonce
            message := "SASLInitialResponse"
            response := gs2Header ++ ",,n=*,r=" ++ clientNonce
            serverSignature := none }

/-- Printable ASCII except `,`, per character code (`isPrintableChars`). -/
def isPrintableCharCode (n : Nat) : Bool :=
  decide ((0x21 ≤ n ∧ n ≤ 0x2b) ∨ (0x2d ≤ n ∧ n ≤ 0x7e))

/-- Source `isPrintableChars(text)`. -/
def isPrintableChars (text : String) : Bool :=
  text.data.all fun c => isPrintableCharCode c.toNat

/-- A base64 alphabet character. -/
def isB64Char (c : Char) : Bool := c.isAlpha || c.isDigit || c = '+' || c = '/'

/-- The regex `^(?:[a-zA-Z0-9+/]{4})*(?:[a-zA-Z0-9+/]{2}==|[a-zA-Z0-9+/]{3}=)?$`
reads the string in blocks of four; only the last block may carry `=`
padding. -/
def isBase64Chunks : List Char → Bool
  | [] => true
  | a :: b :: c :: d :: rest =>
    isB64Char a && isB64Char b &&
      ((isB64Char c && isB64Char d && isBase64Chunks rest) ||
        (rest.isEmpty && ((c = '=' && d = '=') || (isB64Char c && d = '='))))
  | _ => false

/-- Source `isBase64(text)`. -/
def isBase64 (text : String) : Bool := isBase64Chunks text.data

/-- Source `parseAttributePairs(text)`: split on commas; each entry must match
`/^.=/` (JS `.` does not match line terminators); name is the first
character, value everything from index 2. -/
def parseAttributePairs (text : String) : Except String (List (Char × String)) :=
  (splitComma text.data).mapM fun av =>
    match av with
    | a :: b :: rest =>
      if b = '=' ∧ a ≠ '\n' ∧ a ≠ '\r' ∧ a.toNat ≠ 0x2028 ∧ a.toNat ≠ 0x2029 then
        Except.ok (a, String.mk rest)
      else Except.error "SASL: Invalid attribute pair entry"
    | _ => Except.error "SASL: Invalid attribute pair entry"

/-- JS `Map.get` over the pairs: the source builds a JS `Map`, where a later
entry for the same key overwrites an earlier one. -/
def attrGet : List (Char × String) → Char → Option String
  | [], _ => none
  | (n, v) :: rest, k =>
    match attrGet rest k with
    | some w => some w
    | none => if n = k then some v else none

/-- JS falsiness of `Map.get`'s result: `undefined` (absent) or `""`. -/
def falsyAttr (o : Option String) : Bool :=
  match o with
  | none => true
  | some s => s.isEmpty

/-- The iteration-count regex `^[1-9][0-9]*$`. -/
def isValidIterationText (s : String) : Bool :=
  match s.data with
  | [] => false
  | c :: rest => decide ('1' ≤ c ∧ c ≤ '9') && rest.all Char.isDigit

/-- Decimal digits to a number; models `parseInt` on a string already known
to match `^[1-9][0-9]*$`. -/
def digitsToNat (cs : List Char) : Nat :=
  cs.foldl (fun acc c => acc * 10 + (c.toNat - '0'.toNat)) 0

structure ServerFirstMessage where
  nonce : String
  salt : String
  iteration : Nat
  deriving DecidableEq, Repr

/-- Source `parseServerFirstMessage(data)`, with its checks in
source order. -/
def parseServerFirstMessage (data : String) : Except String ServerFirstMessage := do
  let attrPairs ← parseAttributePairs data
  match attrGet attrPairs 'r' with
  | none => throw "SASL: SCRAM-SERVER-FIRST-MESSAGE: nonce missing"
  | some nonce =>
    if nonce.isEmpty then
      throw "SASL: SCRAM-SERVER-FIRST-MESSAGE: nonce missing"
    else if !isPrintableChars nonce then
      throw "SASL: SCRAM-SERVER-FIRST-MESSAGE: nonce must only contain printable characters"
    else
      match attrGet attrPairs 's' with
      | none => throw "SASL: SCRAM-SERVER-FIRST-MESSAGE: salt missing"
      | some salt =>
        if salt.isEmpty then
          throw "SASL: SCRAM-SERVER-FIRST-MESSAGE: salt missing"
        else if !isBase64 salt then
          throw "SASL: SCRAM-SERVER-FIRST-MESSAGE: salt must be base64"
        else
          match attrGet attrPairs 'i' with
          | none => throw "SASL: SCRAM-SERVER-FIRST-MESSAGE: iteration missing"
          | some iterationText =>
            if iterationText.isEmpty then
              throw "SASL: SCRAM-SERVER-FIRST-MESSAGE: iteration missing"
            else if !isValidIterationText iterationText then
              throw "SASL: SCRAM-SERVER-FIRST-MESSAGE: invalid iteration count"
            else
              pure { nonce := nonce, salt := salt
                     iteration := digitsToNat iterationText.data }

/-- Source `xorBuffers(a, b)`; buffers are byte lists.  The two
`Buffer.isBuffer` type checks are enforced by the Lean type.  Writing each
xor into a fresh `Buffer` keeps values in a byte, modelled by `% 256`. -/
def xorBuffers (a b : List Nat) : Except String (List Nat) :=
  if a.length ≠ b.length then .error "Buffer lengths must match"
  else if a.length = 0 then .error "Buffers cannot be empty"
  else .ok (List.zipWith (fun x y => (x ^^^ y) % 256) a b)

/-- UTF-8 bytes of an ASCII string (`Buffer.from(s)` for the ASCII strings
the module builds). -/
def strBytes (s : String) : List Nat := s.data.map Char.toNat

/-- The external primitives `crypto/sasl.js` imports: OpenSSL-backed
hashing/PBKDF2 (`crypto/utils`), the certificate signature-hash reader
(`crypto/cert-signatures`), and Node `Buffer` base64 conversion. -/
structure CryptoOps where
  deriveKey : String → List Nat → Nat → List Nat
  hmacSha256 : List Nat → String → List Nat
  sha256 : List Nat → List Nat
  signatureAlgorithmHashFromCertificate : List Nat → String
  hashByName : String → List Nat → List Nat
  b64decode : String → List Nat
  b64encode : List Nat → String

/-- A concrete `CryptoOps` used to instantiate theorems about code paths
that do not depend on the cryptographic primitives. -/
def CryptoOps.trivialOps : CryptoOps where
  deriveKey := fun _ _ _ => [0]
  hmacSha256 := fun _ _ => [0]
  sha256 := fun _ => [0]
  signatureAlgorithmHashFromCertificate := fun _ => "SHA-256"
  hashByName := fun _ _ => [0]
  b64decode := fun _ => [0]
  b64encode := fun _ => ""

/-- Source `continueSession(session, password, serverData, stream)`, with its checks in source order.  `password` and `serverData` are
`JsVal`s because the source checks them with `typeof`. -/
def continueSession (ops : CryptoOps) (session : ScramSession) (password : JsVal)
    (serverData : JsVal) (stream : Option SaslStream) : Except String ScramSession := do
  if session.message ≠ "SASLInitialResponse" then
    throw "SASL: Last message was not SASLInitialResponse"
  else
    match password with
    | .str pw =>
      if pw = "" then
        throw "SASL: SCRAM-SERVER-FIRST-MESSAGE: client password must be a non-empty string"
      else
        match serverData with
        | .str sd => do
          let sv ← parseServerFirstMessage sd
          if !(jsStartsWith sv.nonce session.clientNonce) then
            throw "SASL: SCRAM-SERVER-FIRST-MESSAGE: server nonce does not start with client nonce"
          else if sv.nonce.length = session.clientNonce.length then
            throw "SASL: SCRAM-SERVER-FIRST-MESSAGE: server nonce is too short"
          else do
            let clientFirstMessageBare := "n=*,r=" ++ session.clientNonce
            let serverFirstMessage :=
              "r=" ++ sv.nonce ++ ",s=" ++ sv.salt ++ ",i=" ++ toString sv.iteration
            let channelBinding ←
              if session.mechanism = "SCRAM-SHA-256-PLUS" then
                match stream with
                | some st =>
                  let peerCert := st.peerCertRaw
                  let hashName0 := ops.signatureAlgorithmHashFromCertificate peerCert
                  let hashName :=
                    if hashName0 = "MD5" ∨ hashName0 = "SHA-1" then "SHA-256" else hashName0
                  let certHash := ops.hashByName hashName peerCert
                  pure (ops.b64encode (strBytes "p=tls-server-end-point,," ++ certHash))
                | none =>
                  -- in JS this dereference of a falsy stream raises a TypeError
                  throw "SASL: SCRAM-SHA-256-PLUS channel binding requires a stream"
              else
                pure (if stream.isSome then "eSws" else "biws")
            let clientFinalMessageWithoutProof := "c=" ++ channelBinding ++ ",r=" ++ sv.nonce
            let authMessage := clientFirstMessageBare ++ "," ++ serverFirstMessage ++ ","
              ++ clientFinalMessageWithoutProof
            let saltBytes := ops.b64decode sv.salt
            let saltedPassword := ops.deriveKey pw saltBytes sv.iteration
            let clientKey := ops.hmacSha256 saltedPassword "Client Key"
            let storedKey := ops.sha256 clientKey
            let clientSignature := ops.hmacSha256 storedKey authMessage
            let clientProofBytes ← xorBuffers clientKey clientSignature
            let clientProof := ops.b64encode clientProofBytes
            let serverKey := ops.hmacSha256 saltedPassword "Server Key"
            let serverSignatureBytes := ops.hmacSha256 serverKey authMessage
            pure { session with
                    message := "SASLResponse"
                    serverSignature := some (ops.b64encode serverSignatureBytes)
                    response := clientFinalMessageWithoutProof ++ ",p=" ++ clientProof }
        | _ => throw "SASL: SCRAM-SERVER-FIRST-MESSAGE: serverData must be a string"
    | _ => throw "SASL: SCRAM-SERVER-FIRST-MESSAGE: client password must be a string"

/-! ## Client session model (`client.js`)

The `Client` structure carries the boolean flags and the queue/dispatch
state of the JS `Client`; queries are identified by `QueryId`.  Each handler
returns the successor state together with the observable effects, and an
effect records whether it runs synchronously (`Eff.now`) or inside a
`process.nextTick` callback (`Eff.nextTick`). -/

abbrev QueryId := Nat

/-- The parts of a query object the client reads: the outcome of
`query.submit(connection)` (a preflight error or success), and the
`name`/`text` pair used by the parseComplete handler. -/
structure QueryInfo where
  submitError : Option String
  name : Option String
  text : String
  deriving DecidableEq, Repr

/-- An observable action performed by a handler. -/
inductive ClientAction where
  | handleError (q : QueryId) (msg : String)
  | handleReady (q : QueryId)
  | delegateCommandComplete (q : QueryId)
  | connectCallback (err : Option String)
  | emitError (msg : String)
  | emitConnect
  | emitDrain
  | emitEnd
  | restoreReadyAndPulse
  deriving DecidableEq, Repr

/-- An effect: an action performed synchronously inside the handler, or a
list of actions scheduled with one `process.nextTick` call. -/
inductive Eff where
  | now (a : ClientAction)
  | nextTick (acts : List ClientAction)
  deriving DecidableEq, Repr

/-- Client session state (field names drop the `_` prefix of the source;
`connConnecting` is `this.connection._connecting`, `hasConnectionCallback`
records whether `this._connectionCallback` is set, and `parsedStatements`
models `this.connection.parsedStatements`). -/
structure Client where
  connecting : Bool
  connected : Bool
  connectionError : Bool
  queryable : Bool
  ending : Bool
  ended : Bool
  readyForQuery : Bool
  hasExecuted : Bool
  hasConnectionCallback : Bool
  connConnecting : Bool
  activeQuery : Option QueryId
  queryQueue : List QueryId
  processID : Option Int
  secretKey : Option Int
  parsedStatements : List (String × String)
  deriving DecidableEq, Repr

/-- The state the `Client` constructor builds (timers, types and transport
configuration are external and not part of this model). -/
def Client.init : Client where
  connecting := false
  connected := false
  connectionError := false
  queryable := true
  ending := false
  ended := false
  readyForQuery := false
  hasExecuted := false
  hasConnectionCallback := false
  connConnecting := false
  activeQuery := none
  queryQueue := []
  processID := none
  secretKey := none
  parsedStatements := []

/-- Source `Client.prototype._errorAllQueries(err)`: schedule `handleError` on the
active query (if any) and on every queued query, each inside its own
`process.nextTick`; null the active query and empty the queue. -/
def Client.errorAllQueries (s : Client) (err : String) : Client × List Eff :=
  ({ s with activeQuery := none, queryQueue := [] },
    (match s.activeQuery with
     | some q => [Eff.nextTick [ClientAction.handleError q err]]
     | none => []) ++
    s.queryQueue.map fun q => Eff.nextTick [ClientAction.handleError q err])

/-- Source `Client.prototype._handleErrorWhileConnecting(err)`. -/
def Client.handleErrorWhileConnecting (s : Client) (err : String) : Client × List Eff :=
  if s.connectionError then (s, [])
  else
    let s' := { s with connectionError := true }
    if s.hasConnectionCallback then (s', [Eff.now (ClientAction.connectCallback (some err))])
    else (s', [Eff.now (ClientAction.emitError err)])

/-- Source `Client.prototype._handleErrorEvent(err)`: a socket error. -/
def Client.handleErrorEvent (s : Client) (err : String) : Client × List Eff :=
  if s.connecting then s.handleErrorWhileConnecting err
  else
    let r := Client.errorAllQueries { s with queryable := false } err
    (r.1, r.2 ++ [Eff.now (ClientAction.emitError err)])

/-- Source `Client.prototype._handleErrorMessage(msg)`: a backend `ErrorResponse`.
Note the source invokes `activeQuery.handleError` synchronously here. -/
def Client.handleErrorMessage (s : Client) (err : String) : Client × List Eff :=
  if s.connecting then s.handleErrorWhileConnecting err
  else
    match s.activeQuery with
    | none => s.handleErrorEvent err
    | some q => ({ s with activeQuery := none }, [Eff.now (ClientAction.handleError q err)])

/-- Source `Client.prototype._handleBackendKeyData(msg)`. -/
def Client.handleBackendKeyData (s : Client) (pid key : Int) : Client :=
  { s with processID := some pid, secretKey := some key }

/-- Source `Client.prototype._pulseQueryQueue()`.  When the shifted-in query's
`submit` returns a preflight error, the source schedules one
`process.nextTick` whose body runs `handleError`, restores
`readyForQuery = true` and re-pulses; that scheduled continuation is the
`restoreReadyAndPulse` action. -/
def Client.pulseQueryQueue (qi : QueryId → QueryInfo) (s : Client) : Client × List Eff :=
  if s.readyForQuery then
    match s.queryQueue with
    | q :: rest =>
      let s' := { s with activeQuery := some q, queryQueue := rest,
                         readyForQuery := false, hasExecuted := true }
      match (qi q).submitError with
      | some e => (s', [Eff.nextTick [ClientAction.handleError q e, ClientAction.restoreReadyAndPulse]])
      | none => (s', [])
    | [] =>
      if s.hasExecuted then ({ s with activeQuery := none }, [Eff.now ClientAction.emitDrain])
      else ({ s with activeQuery := none }, [])
  else (s, [])

/-- Source `Client.prototype._handleReadyForQuery(msg)`. -/
def Client.handleReadyForQueryMsg (qi : QueryId → QueryInfo) (s : Client) : Client × List Eff :=
  let s1 :=
    if s.connecting then
      { s with connecting := false, connected := true, hasConnectionCallback := false }
    else s
  let effs1 :=
    if s.connecting then
      (if s.hasConnectionCallback then [Eff.now (ClientAction.connectCallback none)] else [])
        ++ [Eff.now ClientAction.emitConnect]
    else []
  let active := s1.activeQuery
  let s2 := { s1 with activeQuery := none, readyForQuery := true }
  let effs2 := match active with
    | some q => [Eff.now (ClientAction.handleReady q)]
    | none => []
  let r := Client.pulseQueryQueue qi s2
  (r.1, effs1 ++ effs2 ++ r.2)

/-- Source `Client.prototype._handleCommandComplete(msg)`. -/
def Client.handleCommandComplete (s : Client) : Client × List Eff :=
  match s.activeQuery with
  | none => s.handleErrorEvent "Received unexpected commandComplete message from backend."
  | some q => (s, [Eff.now (ClientAction.delegateCommandComplete q)])

/-- Association-list overwrite, modelling `map[name] = text`. -/
def assocSet (m : List (String × String)) (k v : String) : List (String × String) :=
  match m with
  | [] => [(k, v)]
  | (k', v') :: rest => if k' = k then (k, v) :: rest else (k', v') :: assocSet rest k v

/-- Source `Client.prototype._handleParseComplete()`. -/
def Client.handleParseComplete (qi : QueryId → QueryInfo) (s : Client) : Client × List Eff :=
  match s.activeQuery with
  | none => s.handleErrorEvent "Received unexpected parseComplete message from backend."
  | some q =>
    match (qi q).name with
    | some nm => ({ s with parsedStatements := assocSet s.parsedStatements nm (qi q).text }, [])
    | none => (s, [])

/-- The `con.once('end', ...)` handler installed by `_connect`. -/
def Client.handleConnectionEnd (s : Client) : Client × List Eff :=
  let err := if s.ending then "Connection terminated" else "Connection terminated unexpectedly"
  let r1 := Client.errorAllQueries s err
  let s2 := { r1.1 with ended := true }
  let r2 :=
    if !s2.ending then
      if s2.connecting && !s2.connectionError then
        if s2.hasConnectionCallback then (s2, [Eff.now (ClientAction.connectCallback (some err))])
        else s2.handleErrorEvent err
      else if !s2.connectionError then s2.handleErrorEvent err
      else (s2, ([] : List Eff))
    else (s2, ([] : List Eff))
  (r2.1, r1.2 ++ r2.2 ++ [Eff.nextTick [ClientAction.emitEnd]])

/-- Source `Client.prototype.query(config, ...)` once the argument has been turned
into a query object `q`: the queryable/ending guards and the
enqueue-and-pulse tail (lines 633–649 of the source).  The callback and
read-timeout plumbing of the same method is modelled separately below. -/
def Client.query (qi : QueryId → QueryInfo) (s : Client) (q : QueryId) : Client × List Eff :=
  if !s.queryable then
    (s, [Eff.nextTick
      [ClientAction.handleError q "Client has encountered a connection error and is not queryable"]])
  else if s.ending then
    (s, [Eff.nextTick [ClientAction.handleError q "Client was closed and is not queryable"]])
  else
    Client.pulseQueryQueue qi { s with queryQueue := s.queryQueue ++ [q] }

/-- What `end()` does to the transport. -/
inductive TransportAct where
  | noAction
  | destroyStream
  | sendTerminate
  deriving DecidableEq, Repr

/-- The outcome of one `end()` call. -/
structure EndResult where
  state : Client
  calledBackImmediately : Bool
  transport : TransportAct
  subscribedToEnd : Bool
  deriving DecidableEq, Repr

/-- Source `Client.prototype.end(cb)`.  Only the promise form returns early in the
never-connected/already-ended case; the callback form invokes `cb()` and
then falls through to the transport shutdown and the `once('end', cb)`
subscription. -/
def Client.endCall (s : Client) (hasCb : Bool) : EndResult :=
  let s1 := { s with ending := true }
  if (!s1.connConnecting || s1.ended) && !hasCb then
    { state := s1, calledBackImmediately := true, transport := .noAction,
      subscribedToEnd := false }
  else
    { state := s1
      calledBackImmediately := (!s1.connConnecting || s1.ended) && hasCb
      transport :=
        if s1.activeQuery.isSome || !s1.queryable then .destroyStream else .sendTerminate
      subscribedToEnd := true }

/-- The inbound events and calls the session reacts to. -/
inductive ClientEvent where
  | backendKeyData (pid : Int) (key : Int)
  | readyForQueryMsg
  | errorEvent (msg : String)
  | errorMessage (msg : String)
  | commandComplete
  | parseComplete
  | connectionEnd
  | callQuery (q : QueryId)
  | callEnd (hasCb : Bool)
  deriving DecidableEq, Repr

def ClientEvent.isBackendKeyData : ClientEvent → Bool
  | .backendKeyData _ _ => true
  | _ => false

/-- One step of the session: dispatch an event to its handler. -/
def Client.step (qi : QueryId → QueryInfo) (s : Client) : ClientEvent → Client × List Eff
  | .backendKeyData pid key => (s.handleBackendKeyData pid key, [])
  | .readyForQueryMsg => Client.handleReadyForQueryMsg qi s
  | .errorEvent m => s.handleErrorEvent m
  | .errorMessage m => s.handleErrorMessage m
  | .commandComplete => s.handleCommandComplete
  | .parseComplete => Client.handleParseComplete qi s
  | .connectionEnd => s.handleConnectionEnd
  | .callQuery q => Client.query qi s q
  | .callEnd hasCb => ((s.endCall hasCb).state, [])

/-! ### Query callback and read-timeout plumbing (lines 563–623)

When a read timeout is configured, the source keeps the original callback
in `queryCallback` and replaces `query.callback` with a wrapper that clears
the timer and forwards to the original; when the timer fires it calls the
original once with the timeout error and replaces `query.callback` with a
no-op, so any later completion reaches only the no-op. -/

/-- The state of `query.callback` once a read timeout has been armed. -/
inductive QueryCallbackState where
  | wrapped
  | timedOut
  deriving DecidableEq, Repr

/-- Invoking `query.callback` with outcome `x`: the list of invocations of
the original callback that result. -/
def invokeQueryCallback (cb : QueryCallbackState) (x : String) : List String :=
  match cb with
  | .wrapped => [x]
  | .timedOut => []

/-- The outcome of the read-timeout timer firing. -/
structure ReadTimeoutResult where
  state : Client
  cb : QueryCallbackState
  originalCalls : List String
  effs : List Eff
  deriving Repr

/-- The body of the `setTimeout` callback (lines 597–617): schedule
`query.handleError` on a next tick, call the original callback with the
timeout error, replace `query.callback` by a no-op, remove the query from
the queue if still there, and pulse. -/
def readTimeoutFire (qi : QueryId → QueryInfo) (s : Client) (q : QueryId) : ReadTimeoutResult :=
  let err := "Query read timeout"
  let s1 := { s with queryQueue := s.queryQueue.erase q }
  { state := (Client.pulseQueryQueue qi s1).1
    cb := .timedOut
    originalCalls := [err]
    effs := [Eff.nextTick [ClientAction.handleError q err]] ++ (Client.pulseQueryQueue qi s1).2 }

/-! ## Startup parameter assembler (`Client.prototype.getStartupConf`) -/

/-- The resolved connection parameters `getStartupConf` reads.  `user` and
`database` are strings (the external parameter resolver defaults them);
the optional fields keep their JS dynamic type. -/
structure ConnectionParams where
  user : String
  database : String
  application_name : JsVal
  fallback_application_name : JsVal
  replication : JsVal
  statement_timeout : JsVal
  lock_timeout : JsVal
  idle_in_transaction_session_timeout : JsVal
  options : JsVal
  deriving DecidableEq, Repr

/-- First-match lookup in the startup map (keys are distinct, so this is
JS object key access). -/
def lookupKey (m : List (String × JsVal)) (k : String) : Option JsVal :=
  match m with
  | [] => none
  | (k', v) :: rest => if k' = k then some v else lookupKey rest k

/-- Source `Client.prototype.getStartupConf()`: the startup key/value map, with
entries added in source order. -/
def getStartupConf (params : ConnectionParams) : List (String × JsVal) :=
  [("user", JsVal.str params.user), ("database", JsVal.str params.database)]
  ++ (let appName := jsOr params.application_name params.fallback_application_name
      if appName.truthy then [("application_name", appName)] else [])
  ++ (if params.replication.truthy then
        [("replication", JsVal.str params.replication.toStr)] else [])
  ++ (if params.statement_timeout.truthy then
        [("statement_timeout", JsVal.str (jsStringOfParseInt params.statement_timeout))] else [])
  ++ (if params.lock_timeout.truthy then
        [("lock_timeout", JsVal.str (jsStringOfParseInt params.lock_timeout))] else [])
  ++ (if params.idle_in_transaction_session_timeout.truthy then
        [("idle_in_transaction_session_timeout",
          JsVal.str (jsStringOfParseInt params.idle_in_transaction_session_timeout))] else [])
  ++ (if params.options.truthy then [("options", params.options)] else [])

/-! ## Theorems -/

/-- A trivial query table used to instantiate universally quantified
theorems at concrete inputs. -/
def qiTrivial : QueryId → QueryInfo := fun _ => ⟨none, none, ""⟩

/-- Returns `true` when some effect invokes a query's `handleError` synchronously
(outside any `process.nextTick`). -/
def deliversHandleErrorNow (effs : List Eff) : Bool :=
  effs.any fun e =>
    match e with
    | .now (.handleError _ _) => true
    | _ => false

/-- The pulse `_pulseQueryQueue` never shrinks the queue by more than popping from
the front: membership is preserved downward. -/
theorem pulse_queue_not_mem (qi : QueryId → QueryInfo) (s : Client) (q : QueryId)
    (h : q ∉ s.queryQueue) : q ∉ (Client.pulseQueryQueue qi s).1.queryQueue := by
  unfold Client.pulseQueryQueue
  split
  · cases hq : s.queryQueue with
    | nil => simp only [hq]; split <;> simp
    | cons q' rest =>
      rw [hq] at h
      simp only [hq]
      cases hsub : (qi q').submitError <;> simp_all
  · simpa using h

/-- C1: on a client with `_queryable = false` or `_ending = true`, `query(q)`
leaves the state (in particular the query queue) unchanged, never enqueues
`q`, and schedules exactly one `process.nextTick` that delivers an error to
`q`; when the client is still queryable (so it is ending) the error message
says the client was closed. -/
theorem query_guard_not_enqueued (qi : QueryId → QueryInfo) (s : Client) (q : QueryId)
    (h : s.queryable = false ∨ s.ending = true) :
    (Client.query qi s q).1 = s ∧
    (Client.query qi s q).1.queryQueue = s.queryQueue ∧
    ∃ m, (Client.query qi s q).2 = [Eff.nextTick [ClientAction.handleError q m]] ∧
      (s.queryable = true → m = "Client was closed and is not queryable") := by
  rcases h with h | h
  · simp [Client.query, h]
  · by_cases hq : s.queryable
    · simp [Client.query, hq, h]
    · simp [Client.query, hq]

theorem query_guard_not_enqueued_witness :
    (Client.query qiTrivial { Client.init with ending := true } 5).1.queryQueue = [] ∧
    (Client.query qiTrivial { Client.init with ending := true } 5).2
      = [Eff.nextTick
          [ClientAction.handleError 5 "Client was closed and is not queryable"]] ∧
    (Client.query qiTrivial { Client.init with queryable := false } 7).1.queryQueue = [] := by
  refine ⟨(query_guard_not_enqueued qiTrivial _ 5 (Or.inr rfl)).2.1, ?_,
    (query_guard_not_enqueued qiTrivial _ 7 (Or.inl rfl)).2.1⟩
  obtain ⟨m, hm, himp⟩ :=
    (query_guard_not_enqueued qiTrivial { Client.init with ending := true } 5 (Or.inr rfl)).2.2
  rw [himp rfl] at hm
  exact hm

/-- C2: when the read timeout fires, the query is removed from the queue if
still queued, the original callback is invoked exactly once, with the
"Query read timeout" error, and `query.callback` becomes a no-op, so every
later completion or error for that query invokes the original callback zero
more times. -/
theorem readTimeout_fire_spec (qi : QueryId → QueryInfo) (s : Client) (q : QueryId)
    (hcount : s.queryQueue.count q ≤ 1) :
    (readTimeoutFire qi s q).originalCalls = ["Query read timeout"] ∧
    q ∉ (readTimeoutFire qi s q).state.queryQueue ∧
    (readTimeoutFire qi s q).cb = QueryCallbackState.timedOut ∧
    (∀ x, invokeQueryCallback (readTimeoutFire qi s q).cb x = []) := by
  refine ⟨rfl, ?_, rfl, fun _ => rfl⟩
  apply pulse_queue_not_mem
  have : (s.queryQueue.erase q).count q = s.queryQueue.count q - 1 :=
    List.count_erase_self q s.queryQueue
  have hz : (s.queryQueue.erase q).count q = 0 := by omega
  exact List.count_eq_zero.mp hz

theorem readTimeout_fire_witness :
    (readTimeoutFire qiTrivial { Client.init with queryQueue := [7] } 7).originalCalls
        = ["Query read timeout"] ∧
    7 ∉ (readTimeoutFire qiTrivial { Client.init with queryQueue := [7] } 7).state.queryQueue ∧
    invokeQueryCallback
      (readTimeoutFire qiTrivial { Client.init with queryQueue := [7] } 7).cb "done" = [] :=
  ⟨(readTimeout_fire_spec qiTrivial _ 7 (by decide)).1,
   (readTimeout_fire_spec qiTrivial _ 7 (by decide)).2.1,
   (readTimeout_fire_spec qiTrivial _ 7 (by decide)).2.2.2 "done"⟩

/-- C3 counterexample: a backend `ErrorResponse` routed to the active query
invokes `activeQuery.handleError` synchronously inside the message handler,
not on a later tick. -/
theorem errorMessage_sync_delivery_cex :
    (Client.handleErrorMessage { Client.init with activeQuery := some 0 } "boom").2
      = [Eff.now (ClientAction.handleError 0 "boom")] ∧
    deliversHandleErrorNow
      (Client.handleErrorMessage { Client.init with activeQuery := some 0 } "boom").2 = true := by
  constructor <;> rfl

/-- C3 (amended): a socket error (`_errorAllQueries`) and a submit
preflight error (`_pulseQueryQueue`) deliver every `handleError` inside a
`process.nextTick`, with one tick per failed query; a backend
`ErrorResponse` with an active query, by contrast, invokes that query's
`handleError` synchronously from the message handler. -/
theorem error_delivery_ticks (qi : QueryId → QueryInfo) (s : Client) (err : String)
    (q : QueryId) :
    deliversHandleErrorNow (Client.errorAllQueries s err).2 = false ∧
    (∀ qq ∈ s.queryQueue,
      Eff.nextTick [ClientAction.handleError qq err] ∈ (Client.errorAllQueries s err).2) ∧
    (s.activeQuery = some q →
      Eff.nextTick [ClientAction.handleError q err] ∈ (Client.errorAllQueries s err).2) ∧
    deliversHandleErrorNow (Client.pulseQueryQueue qi s).2 = false ∧
    (∀ rest e, s.readyForQuery = true → s.queryQueue = q :: rest →
      (qi q).submitError = some e →
      (Client.pulseQueryQueue qi s).2
        = [Eff.nextTick [ClientAction.handleError q e, ClientAction.restoreReadyAndPulse]]) ∧
    (s.connecting = false → s.activeQuery = some q →
      Client.handleErrorMessage s err
        = ({ s with activeQuery := none }, [Eff.now (ClientAction.handleError q err)])) := by
  refine ⟨?_, ?_, ?_, ?_, ?_, ?_⟩
  · cases h : s.activeQuery <;>
      simp [Client.errorAllQueries, deliversHandleErrorNow, h, List.any_map, Function.comp]
  · intro qq hqq
    cases h : s.activeQuery <;> simp [Client.errorAllQueries, h, List.mem_map] <;>
      first
        | exact hqq
        | exact Or.inr hqq
  · intro h
    simp [Client.errorAllQueries, h]
  · unfold Client.pulseQueryQueue
    split
    · cases hq : s.queryQueue with
      | nil => simp only [hq]; split <;> simp [deliversHandleErrorNow]
      | cons q' rest =>
        simp only [hq]
        cases hsub : (qi q').submitError <;> simp [deliversHandleErrorNow]
    · simp [deliversHandleErrorNow]
  · intro rest e hready hq hsub
    unfold Client.pulseQueryQueue
    simp [hready, hq, hsub]
  · intro hc ha
    simp [Client.handleErrorMessage, hc, ha]

/-- A query table whose single query fails `submit` with a preflight
error, used to instantiate the submit-preflight clause. -/
def qiPreflight : QueryId → QueryInfo := fun _ => ⟨some "bad submit", none, ""⟩

theorem error_delivery_ticks_witness :
    (deliversHandleErrorNow
      (Client.errorAllQueries { Client.init with queryQueue := [1, 2] } "E").2 = false) ∧
    (Eff.nextTick [ClientAction.handleError 2 "E"]
      ∈ (Client.errorAllQueries { Client.init with queryQueue := [1, 2] } "E").2) ∧
    ((Client.pulseQueryQueue qiPreflight
        { Client.init with readyForQuery := true, queryQueue := [4] }).2
      = [Eff.nextTick
          [ClientAction.handleError 4 "bad submit", ClientAction.restoreReadyAndPulse]]) ∧
    (deliversHandleErrorNow (Client.pulseQueryQueue qiPreflight
      { Client.init with readyForQuery := true, queryQueue := [4] }).2 = false) ∧
    (Client.handleErrorMessage { Client.init with activeQuery := some 3 } "E"
      = ({ Client.init with activeQuery := none }, [Eff.now (ClientAction.handleError 3 "E")])) :=
  ⟨(error_delivery_ticks qiTrivial { Client.init with queryQueue := [1, 2] } "E" 0).1,
   (error_delivery_ticks qiTrivial { Client.init with queryQueue := [1, 2] } "E" 0).2.1 2
     (by decide),
   (error_delivery_ticks qiPreflight
      { Client.init with readyForQuery := true, queryQueue := [4] } "E" 4).2.2.2.2.1
     [] "bad submit" rfl rfl rfl,
   (error_delivery_ticks qiPreflight
      { Client.init with readyForQuery := true, queryQueue := [4] } "E" 4).2.2.2.1,
   (error_delivery_ticks qiTrivial { Client.init with activeQuery := some 3 } "E" 3).2.2.2.2.2
     rfl rfl⟩

/-- The pulse `_pulseQueryQueue` never writes `processID`. -/
theorem pulse_processID (qi : QueryId → QueryInfo) (s : Client) :
    (Client.pulseQueryQueue qi s).1.processID = s.processID := by
  unfold Client.pulseQueryQueue
  split
  · cases hq : s.queryQueue with
    | nil => simp only [hq]; split <;> rfl
    | cons q' rest => simp only [hq]; cases hsub : (qi q').submitError <;> simp
  · rfl

/-- The pulse `_pulseQueryQueue` never writes `secretKey`. -/
theorem pulse_secretKey (qi : QueryId → QueryInfo) (s : Client) :
    (Client.pulseQueryQueue qi s).1.secretKey = s.secretKey := by
  unfold Client.pulseQueryQueue
  split
  · cases hq : s.queryQueue with
    | nil => simp only [hq]; split <;> rfl
    | cons q' rest => simp only [hq]; cases hsub : (qi q').submitError <;> simp
  · rfl

theorem errorAll_processID (s : Client) (err : String) :
    (Client.errorAllQueries s err).1.processID = s.processID := rfl

theorem errorAll_secretKey (s : Client) (err : String) :
    (Client.errorAllQueries s err).1.secretKey = s.secretKey := rfl

theorem errorWhile_processID (s : Client) (err : String) :
    (s.handleErrorWhileConnecting err).1.processID = s.processID := by
  unfold Client.handleErrorWhileConnecting
  split
  · rfl
  · split <;> rfl

theorem errorWhile_secretKey (s : Client) (err : String) :
    (s.handleErrorWhileConnecting err).1.secretKey = s.secretKey := by
  unfold Client.handleErrorWhileConnecting
  split
  · rfl
  · split <;> rfl

theorem errorEvent_processID (s : Client) (err : String) :
    (s.handleErrorEvent err).1.processID = s.processID := by
  unfold Client.handleErrorEvent
  split
  · exact errorWhile_processID s err
  · simp [errorAll_processID]

theorem errorEvent_secretKey (s : Client) (err : String) :
    (s.handleErrorEvent err).1.secretKey = s.secretKey := by
  unfold Client.handleErrorEvent
  split
  · exact errorWhile_secretKey s err
  · simp [errorAll_secretKey]

/-- C9 counterexample: a second `BackendKeyData` message overwrites
`processID` and `secretKey`, so they are not write-once. -/
theorem backendKeyData_overwrites_cex :
    ((Client.init.handleBackendKeyData 1 2).handleBackendKeyData 5 6).processID = some 5 ∧
    ((Client.init.handleBackendKeyData 1 2).handleBackendKeyData 5 6).secretKey = some 6 ∧
    ((Client.init.handleBackendKeyData 1 2).handleBackendKeyData 5 6).processID
      ≠ (Client.init.handleBackendKeyData 1 2).processID :=
  ⟨rfl, rfl, by decide⟩

/-- C9 (amended): the `BackendKeyData` handler is the only writer of
`processID` and `secretKey` — every other event or call preserves them —
and it sets them to the values carried by the message (overwriting on a
repeated message rather than keeping the first values). -/
theorem backendKeyData_only_writer (qi : QueryId → QueryInfo) (s : Client) (e : ClientEvent)
    (h : e.isBackendKeyData = false) :
    ((Client.step qi s e).1.processID = s.processID ∧
      (Client.step qi s e).1.secretKey = s.secretKey) ∧
    ∀ pid key, (Client.step qi s (.backendKeyData pid key)).1.processID = some pid ∧
      (Client.step qi s (.backendKeyData pid key)).1.secretKey = some key := by
  refine ⟨?_, fun pid key => ⟨rfl, rfl⟩⟩
  cases e with
  | backendKeyData pid key => simp [ClientEvent.isBackendKeyData] at h
  | readyForQueryMsg =>
    simp only [Client.step, Client.handleReadyForQueryMsg]
    constructor <;> simp only [pulse_processID, pulse_secretKey] <;> split <;> rfl
  | errorEvent m => exact ⟨errorEvent_processID s m, errorEvent_secretKey s m⟩
  | errorMessage m =>
    simp only [Client.step, Client.handleErrorMessage]
    split
    · exact ⟨errorWhile_processID s m, errorWhile_secretKey s m⟩
    · cases ha : s.activeQuery with
      | none => simp only [ha]; exact ⟨errorEvent_processID s m, errorEvent_secretKey s m⟩
      | some q => simp [ha]
  | commandComplete =>
    simp only [Client.step, Client.handleCommandComplete]
    cases ha : s.activeQuery with
    | none => simp only [ha]; exact ⟨errorEvent_processID s _, errorEvent_secretKey s _⟩
    | some q => simp [ha]
  | parseComplete =>
    simp only [Client.step, Client.handleParseComplete]
    cases ha : s.activeQuery with
    | none => simp only [ha]; exact ⟨errorEvent_processID s _, errorEvent_secretKey s _⟩
    | some q => cases hn : (qi q).name <;> simp [ha, hn]
  | connectionEnd =>
    simp only [Client.step, Client.handleConnectionEnd, errorAll_processID, errorAll_secretKey]
    constructor <;>
      (repeat' split) <;>
        simp [errorEvent_processID, errorEvent_secretKey]
  | callQuery q =>
    simp only [Client.step, Client.query]
    split
    · exact ⟨rfl, rfl⟩
    · split
      · exact ⟨rfl, rfl⟩
      · exact ⟨pulse_processID qi _, pulse_secretKey qi _⟩
  | callEnd hasCb =>
    simp only [Client.step, Client.endCall]
    split <;> exact ⟨rfl, rfl⟩

theorem backendKeyData_only_writer_witness :
    (Client.step qiTrivial (Client.init.handleBackendKeyData 1 2) .readyForQueryMsg).1.processID
      = some 1 ∧
    (Client.step qiTrivial (Client.init.handleBackendKeyData 1 2) .readyForQueryMsg).1.secretKey
      = some 2 :=
  ⟨(backendKeyData_only_writer qiTrivial _ .readyForQueryMsg rfl).1.1,
   (backendKeyData_only_writer qiTrivial _ .readyForQueryMsg rfl).1.2⟩

/-- C8: on a client that never connected (`connection._connecting` false),
`end(cb)` with a callback invokes `cb` immediately but still falls through:
it sends `Terminate` via `connection.end()` and subscribes `cb` to the
connection's `end` event — the transport is touched, contrary to the
source's own "end is a noop" comment.  The promise form does return early
without touching the transport. -/
theorem end_neverConnected_callback_touches_transport :
    (Client.endCall Client.init true).calledBackImmediately = true ∧
    (Client.endCall Client.init true).transport = TransportAct.sendTerminate ∧
    (Client.endCall Client.init true).subscribedToEnd = true ∧
    (Client.endCall Client.init false).calledBackImmediately = true ∧
    (Client.endCall Client.init false).transport = TransportAct.noAction ∧
    (Client.endCall Client.init false).subscribedToEnd = false := by
  refine ⟨rfl, by decide, rfl, rfl, by decide, rfl⟩

/-- C4 counterexample: with a transport lacking `getPeerCertificate`
(channel binding enabled over a non-TLS socket) and a server offering
SCRAM-SHA-256-PLUS, `startSession` throws "requires a certificate" instead
of selecting PLUS, although a transport was supplied and the server offered
that mechanism. -/
theorem startSession_certless_cex :
    ("SCRAM-SHA-256-PLUS" ∈ ["SCRAM-SHA-256-PLUS"]) ∧
    startSession ["SCRAM-SHA-256-PLUS"] (some ⟨false, []⟩) "nonce"
      = Except.error "SASL: Mechanism SCRAM-SHA-256-PLUS requires a certificate" :=
  ⟨by decide, rfl⟩

/-- C4 (amended): `startSession` succeeds with SCRAM-SHA-256-PLUS iff a
transport exposing `getPeerCertificate` was supplied and the server offered
PLUS; a certificate-less transport with PLUS offered yields the "requires a
certificate" error; otherwise SCRAM-SHA-256 is selected iff offered, with
the "Only mechanism(s) ..." error naming the candidates when neither
matches; and on success the client-first message is
`gs2Header ++ ",,n=*,r=" ++ clientNonce` with the gs2 header determined by
the mechanism and the presence of a transport. -/
theorem startSession_spec (ms : List String) (st : Option SaslStream) (n : String) :
    ((∃ sess, startSession ms st n = Except.ok sess ∧ sess.mechanism = "SCRAM-SHA-256-PLUS") ↔
      (∃ t, st = some t ∧ t.hasPeerCertFn = true) ∧ "SCRAM-SHA-256-PLUS" ∈ ms) ∧
    ((∃ sess, startSession ms st n = Except.ok sess ∧ sess.mechanism = "SCRAM-SHA-256") ↔
      "SCRAM-SHA-256" ∈ ms ∧ (st = none ∨ "SCRAM-SHA-256-PLUS" ∉ ms)) ∧
    ((∃ t, st = some t ∧ t.hasPeerCertFn = false) ∧ "SCRAM-SHA-256-PLUS" ∈ ms →
      startSession ms st n
        = Except.error "SASL: Mechanism SCRAM-SHA-256-PLUS requires a certificate") ∧
    (st = none ∧ "SCRAM-SHA-256" ∉ ms →
      startSession ms st n
        = Except.error "SASL: Only mechanism(s) SCRAM-SHA-256 are supported") ∧
    (st.isSome ∧ "SCRAM-SHA-256-PLUS" ∉ ms ∧ "SCRAM-SHA-256" ∉ ms →
      startSession ms st n = Except.error
        "SASL: Only mechanism(s) SCRAM-SHA-256-PLUS and SCRAM-SHA-256 are supported") ∧
    (∀ sess, startSession ms st n = Except.ok sess →
      sess.response =
        (if sess.mechanism = "SCRAM-SHA-256-PLUS" then "p=tls-server-end-point"
         else if st.isSome then "y" else "n") ++ ",,n=*,r=" ++ n ∧
      sess.clientNonce = n) := by
  cases st with
  | none =>
    by_cases h256 : "SCRAM-SHA-256" ∈ ms <;>
      (simp [startSession, h256, String.intercalate]; try rfl)
  | some t =>
    by_cases hplus : "SCRAM-SHA-256-PLUS" ∈ ms <;>
      by_cases h256 : "SCRAM-SHA-256" ∈ ms <;>
        cases hcert : t.hasPeerCertFn <;>
          simp [startSession, hplus, h256, hcert, String.intercalate] <;> rfl

theorem startSession_spec_witness :
    (startSession ["SCRAM-SHA-256"] none "N").isOk = true ∧
    startSession ["SCRAM-SHA-256-PLUS"] (some ⟨true, []⟩) "N2"
      = Except.ok { mechanism := "SCRAM-SHA-256-PLUS", clientNonce := "N2"
                    message := "SASLInitialResponse"
                    response := "p=tls-server-end-point,,n=*,r=N2"
                    serverSignature := none } ∧
    startSession ["OTHER"] none "N3"
      = Except.error "SASL: Only mechanism(s) SCRAM-SHA-256 are supported" := by
  refine ⟨?_, rfl, ?_⟩
  · obtain ⟨sess, hs, hmech⟩ :=
      (startSession_spec ["SCRAM-SHA-256"] none "N").2.1.mpr ⟨by decide, Or.inl rfl⟩
    rw [hs]
    rfl
  · exact (startSession_spec ["OTHER"] none "N3").2.2.2.1 ⟨rfl, by decide⟩

/-- Pointwise byte xor undoes itself: the core of the `xorBuffers`
round trip. -/
theorem zipWith_xor_round (a : List Nat) (b : List Nat) (hlen : a.length = b.length)
    (ha : ∀ x ∈ a, x < 256) (hb : ∀ x ∈ b, x < 256) :
    List.zipWith (fun x y => (x ^^^ y) % 256)
      (List.zipWith (fun x y => (x ^^^ y) % 256) a b) b = a := by
  induction a generalizing b with
  | nil => simp
  | cons x xs ih =>
    cases b with
    | nil => simp at hlen
    | cons y ys =>
      simp only [List.zipWith]
      have hx : x < 256 := ha x (by simp)
      have hy : y < 256 := hb y (by simp)
      have h256 : (256 : ℕ) = 2 ^ 8 := by norm_num
      have hxy : x ^^^ y < 256 := by
        rw [h256] at hx hy ⊢
        exact Nat.xor_lt_two_pow hx hy
      congr 1
      · rw [Nat.mod_eq_of_lt hxy, Nat.xor_cancel_right, Nat.mod_eq_of_lt hx]
      · exact ih ys (by simpa using hlen)
          (fun z hz => ha z (by simp [hz]))
          (fun z hz => hb z (by simp [hz]))

/-- C6: `ClientProof = ClientKey XOR ClientSignature` is reversible —
for every pair of equal-length non-empty byte buffers,
`xorBuffers (xorBuffers a b) b` recovers `a` bytewise. -/
theorem xorBuffers_round_trip (a b : List Nat) (hlen : a.length = b.length)
    (hne : a ≠ []) (ha : ∀ x ∈ a, x < 256) (hb : ∀ x ∈ b, x < 256) :
    ∃ c, xorBuffers a b = Except.ok c ∧ xorBuffers c b = Except.ok a := by
  have h1 : ¬ (a.length ≠ b.length) := by simp [hlen]
  have h2 : ¬ (a.length = 0) := by simp [List.length_eq_zero, hne]
  refine ⟨List.zipWith (fun x y => (x ^^^ y) % 256) a b, ?_, ?_⟩
  · rw [xorBuffers, if_neg h1, if_neg h2]
  · have hclen : (List.zipWith (fun x y => (x ^^^ y) % 256) a b).length = b.length := by
      simp [List.length_zipWith, hlen]
    have h3 : ¬ ((List.zipWith (fun x y => (x ^^^ y) % 256) a b).length ≠ b.length) := by
      simp [hclen]
    have h4 : ¬ ((List.zipWith (fun x y => (x ^^^ y) % 256) a b).length = 0) := by
      rw [hclen, ← hlen]
      exact h2
    rw [xorBuffers, if_neg h3, if_neg h4, zipWith_xor_round a b hlen ha hb]

theorem xorBuffers_round_trip_witness :
    xorBuffers [1, 2] [255, 0] = Except.ok [254, 2] ∧
    xorBuffers [254, 2] [255, 0] = Except.ok [1, 2] := by
  obtain ⟨c, h1, h2⟩ :=
    xorBuffers_round_trip [1, 2] [255, 0] rfl (by decide) (by decide) (by decide)
  have hc : c = [254, 2] := by
    have h3 : (Except.ok c : Except String (List Nat)) = Except.ok [254, 2] := by
      rw [← h1]
      rfl
    simpa using h3
  rw [← hc]
  exact ⟨h1, h2⟩

/-- C10: `continueSession` rejects whenever the password is not a string or
is the empty string, and it does so before parsing the server-first message
or performing any key derivation: the outcome is an error that does not
depend on the crypto primitives, the server data or the stream. -/
theorem continueSession_password_guard (ops ops' : CryptoOps) (session : ScramSession)
    (pw : JsVal) (sd sd' : JsVal) (stream stream' : Option SaslStream)
    (h : (∀ s, pw ≠ JsVal.str s) ∨ pw = JsVal.str "") :
    (∃ e, continueSession ops session pw sd stream = Except.error e) ∧
    continueSession ops session pw sd stream = continueSession ops' session pw sd' stream' := by
  by_cases hm : session.message = "SASLInitialResponse"
  · rcases h with h | h
    · cases pw with
      | str s => exact absurd rfl (h s)
      | undef => (simp [continueSession, hm]; exact ⟨_, rfl⟩)
      | jsNull => (simp [continueSession, hm]; exact ⟨_, rfl⟩)
      | bool b => (simp [continueSession, hm]; exact ⟨_, rfl⟩)
      | num n => (simp [continueSession, hm]; exact ⟨_, rfl⟩)
    · subst h
      (simp [continueSession, hm]; exact ⟨_, rfl⟩)
  · constructor
    · exact ⟨_, by simp [continueSession, hm]; rfl⟩
    · simp [continueSession, hm]

/-- A concrete post-`startSession` SCRAM session used to instantiate
theorems. -/
def sessInitial : ScramSession where
  mechanism := "SCRAM-SHA-256"
  clientNonce := "abc"
  message := "SASLInitialResponse"
  response := "n,,n=*,r=abc"
  serverSignature := none

theorem continueSession_password_guard_witness :
    (continueSession CryptoOps.trivialOps sessInitial JsVal.jsNull
      (JsVal.str "r=abcd,s=QUFB,i=4096") none).isOk = false ∧
    (continueSession CryptoOps.trivialOps sessInitial (JsVal.str "")
      (JsVal.str "r=abcd,s=QUFB,i=4096") none).isOk = false := by
  constructor
  · obtain ⟨e, he⟩ := (continueSession_password_guard CryptoOps.trivialOps CryptoOps.trivialOps
      sessInitial JsVal.jsNull (JsVal.str "r=abcd,s=QUFB,i=4096")
      (JsVal.str "r=abcd,s=QUFB,i=4096") none none (Or.inl fun s hx => by cases hx)).1
    rw [he]
    rfl
  · obtain ⟨e, he⟩ := (continueSession_password_guard CryptoOps.trivialOps CryptoOps.trivialOps
      sessInitial (JsVal.str "") (JsVal.str "r=abcd,s=QUFB,i=4096")
      (JsVal.str "r=abcd,s=QUFB,i=4096") none none (Or.inr rfl)).1
    rw [he]
    rfl

/-- Parsing `parseServerFirstMessage` fails on every message whose `i` attribute
does not match `^[1-9][0-9]*$`. -/
theorem parse_rejects_bad_iteration (d : String) (prs : List (Char × String)) (it : String)
    (hp : parseAttributePairs d = Except.ok prs)
    (hi : attrGet prs 'i' = some it)
    (hbad : isValidIterationText it = false) :
    ∃ e, parseServerFirstMessage d = Except.error e := by
  unfold parseServerFirstMessage
  rw [hp]
  simp only [Bind.bind, Except.bind]
  repeat' split
  all_goals first
    | exact ⟨_, rfl⟩
    | (exfalso; simp_all)

/-- C5: `continueSession` rejects every parsed server-first message whose
nonce does not start with the client nonce or whose nonce has exactly the
client nonce's length, and `parseServerFirstMessage` rejects every
iteration attribute that is not a decimal integer with a nonzero leading
digit (zero, negative and non-numeric counts included). -/
theorem scram_nonce_and_iteration_rejection :
    (∀ (ops : CryptoOps) (session : ScramSession) (pw sd : String)
        (stream : Option SaslStream) (sv : ServerFirstMessage),
      parseServerFirstMessage sd = Except.ok sv →
      (jsStartsWith sv.nonce session.clientNonce = false ∨
        sv.nonce.length = session.clientNonce.length) →
      ∃ e, continueSession ops session (JsVal.str pw) (JsVal.str sd) stream
        = Except.error e) ∧
    (∀ (d : String) (prs : List (Char × String)) (it : String),
      parseAttributePairs d = Except.ok prs → attrGet prs 'i' = some it →
      isValidIterationText it = false →
      ∃ e, parseServerFirstMessage d = Except.error e) := by
  constructor
  · intro ops session pw sd stream sv hp hbad
    by_cases hm : session.message = "SASLInitialResponse"
    · by_cases hpw : pw = ""
      · subst hpw
        simp [continueSession, hm]
        exact ⟨_, rfl⟩
      · unfold continueSession
        rcases hbad with hbad | hbad
        · refine ⟨"SASL: SCRAM-SERVER-FIRST-MESSAGE: server nonce does not start with client nonce", ?_⟩
          simp [hm, hpw, hp, hbad, Bind.bind, Except.bind]
          rfl
        · by_cases hsw : jsStartsWith sv.nonce session.clientNonce
          · refine ⟨"SASL: SCRAM-SERVER-FIRST-MESSAGE: server nonce is too short", ?_⟩
            simp [hm, hpw, hp, hbad, hsw, Bind.bind, Except.bind]
            rfl
          · refine ⟨"SASL: SCRAM-SERVER-FIRST-MESSAGE: server nonce does not start with client nonce", ?_⟩
            simp [hm, hpw, hp, hsw, Bind.bind, Except.bind]
            rfl
    · exact ⟨_, by simp [continueSession, hm]; rfl⟩
  · exact parse_rejects_bad_iteration

theorem scram_rejection_witness :
    (continueSession CryptoOps.trivialOps sessInitial (JsVal.str "pencil")
      (JsVal.str "r=xyz,s=QUFB,i=4096") none).isOk = false ∧
    (parseServerFirstMessage "r=abcd,s=QUFB,i=0").isOk = false := by
  constructor
  · obtain ⟨e, he⟩ := scram_nonce_and_iteration_rejection.1 CryptoOps.trivialOps sessInitial
      "pencil" "r=xyz,s=QUFB,i=4096" none ⟨"xyz", "QUFB", 4096⟩ rfl (Or.inl rfl)
    rw [he]
    rfl
  · obtain ⟨e, he⟩ := scram_nonce_and_iteration_rejection.2 "r=abcd,s=QUFB,i=0"
      [('r', "abcd"), ('s', "QUFB"), ('i', "0")] "0" rfl rfl rfl
    rw [he]
    rfl

/-- C7: the startup map always contains `user` and `database`; contains
`application_name` (the `application_name` parameter if set, else
`fallback_application_name`), `replication` coerced to a string, the three
timeouts parsed as integers and re-stringified, and `options` verbatim,
each exactly when the corresponding parameter is set (truthy); and contains
no other keys. -/
theorem getStartupConf_spec (p : ConnectionParams) :
    lookupKey (getStartupConf p) "user" = some (JsVal.str p.user) ∧
    lookupKey (getStartupConf p) "database" = some (JsVal.str p.database) ∧
    lookupKey (getStartupConf p) "application_name"
      = (if p.application_name.truthy then some p.application_name
         else if p.fallback_application_name.truthy then some p.fallback_application_name
         else none) ∧
    lookupKey (getStartupConf p) "replication"
      = (if p.replication.truthy then some (JsVal.str p.replication.toStr) else none) ∧
    lookupKey (getStartupConf p) "statement_timeout"
      = (if p.statement_timeout.truthy
         then some (JsVal.str (jsStringOfParseInt p.statement_timeout)) else none) ∧
    lookupKey (getStartupConf p) "lock_timeout"
      = (if p.lock_timeout.truthy
         then some (JsVal.str (jsStringOfParseInt p.lock_timeout)) else none) ∧
    lookupKey (getStartupConf p) "idle_in_transaction_session_timeout"
      = (if p.idle_in_transaction_session_timeout.truthy
         then some (JsVal.str (jsStringOfParseInt p.idle_in_transaction_session_timeout))
         else none) ∧
    lookupKey (getStartupConf p) "options"
      = (if p.options.truthy then some p.options else none) ∧
    (∀ kv ∈ getStartupConf p,
      kv.1 ∈ (["user", "database", "application_name", "replication", "statement_timeout",
        "lock_timeout", "idle_in_transaction_session_timeout", "options"] : List String)) := by
  by_cases ha : p.application_name.truthy <;>
    by_cases hf : p.fallback_application_name.truthy <;>
      by_cases hr : p.replication.truthy <;>
        by_cases hs : p.statement_timeout.truthy <;>
          by_cases hl : p.lock_timeout.truthy <;>
            by_cases hi : p.idle_in_transaction_session_timeout.truthy <;>
              by_cases ho : p.options.truthy <;>
                simp [getStartupConf, lookupKey, jsOr, ha, hf, hr, hs, hl, hi, ho]

theorem getStartupConf_spec_witness :
    lookupKey (getStartupConf
      { user := "alice", database := "db", application_name := JsVal.undef
        fallback_application_name := JsVal.str "app", replication := JsVal.undef
        statement_timeout := JsVal.num 5000, lock_timeout := JsVal.undef
        idle_in_transaction_session_timeout := JsVal.undef
        options := JsVal.undef }) "user" = some (JsVal.str "alice") ∧
    (("statement_timeout", JsVal.str "5000") ∈ getStartupConf
      { user := "alice", database := "db", application_name := JsVal.undef
        fallback_application_name := JsVal.str "app", replication := JsVal.undef
        statement_timeout := JsVal.num 5000, lock_timeout := JsVal.undef
        idle_in_transaction_session_timeout := JsVal.undef
        options := JsVal.undef }) ∧
    "statement_timeout" ∈ (["user", "database", "application_name", "replication",
      "statement_timeout", "lock_timeout", "idle_in_transaction_session_timeout",
      "options"] : List String) :=
  ⟨(getStartupConf_spec _).1,
   by decide,
   (getStartupConf_spec
      { user := "alice", database := "db", application_name := JsVal.undef
        fallback_application_name := JsVal.str "app", replication := JsVal.undef
        statement_timeout := JsVal.num 5000, lock_timeout := JsVal.undef
        idle_in_transaction_session_timeout := JsVal.undef
        options := JsVal.undef }).2.2.2.2.2.2.2.2
      ("statement_timeout", JsVal.str "5000") (by decide)⟩
